/-
Verification of the role-distribution component of the NagaAgent game core.

The authoritative source is `game/core/interaction_graph/distributor.py`:
the `Distributor` class with `generate_roles`, `assign_collaboration_permissions`
and their helpers.  Python strings are modelled as `List Char`; Python's
`json.loads` is modelled by an executable recursive-descent JSON decoder
(`json_loads`); fallible Python code is modelled with `Except`/`Option`.

The self-play round engine (`start_game_session`) is not part of the sources;
it is modelled from the specification where a claim needs it, and marked so.
-/
import Mathlib

set_option maxRecDepth 100000

namespace NagaDist

/-! ## Python string primitives

Python `str` values are modelled as `List Char`.  The helpers below model the
exact semantics of the Python string operations used by `distributor.py`:
`str.find` (with a start index), `str.rfind`, `str.strip`, slicing, and
`str.startswith`.  Whitespace is the ASCII whitespace set stripped by
`str.strip()` (non-ASCII Unicode whitespace is not modelled; no claim
depends on it). -/

def py_is_space (c : Char) : Bool :=
  c = ' ' || c = '\t' || c = '\n' || c = '\r' || c = '\x0b' || c = '\x0c'

/-- Python `s.strip()`: remove leading and trailing whitespace. -/
def pyStrip (s : List Char) : List Char :=
  ((s.dropWhile py_is_space).reverse.dropWhile py_is_space).reverse

/-- `matchesAt hay needle`: `needle` occurs at the head of `hay`. -/
def matchesAt : List Char → List Char → Bool
  | _, [] => true
  | [], _ :: _ => false
  | h :: hs, n :: ns => h = n && matchesAt hs ns

/-- Smallest index `≥ i` (counting from the given offset) at which `needle`
occurs in `hay`; used to model Python `str.find`. -/
def findAux (hay needle : List Char) (i : Nat) : Option Nat :=
  match hay with
  | [] => if needle = [] then some i else none
  | _ :: t => if matchesAt hay needle then some i else findAux t needle (i + 1)

def pyFindNat (hay needle : List Char) (st : Nat) : Option Nat :=
  if st ≤ hay.length then findAux (hay.drop st) needle st else none

/-- Python `hay.find(needle, start)`: `-1` when the needle does not occur at
or after `start`; a negative `start` counts from the end, clamped at `0`. -/
def pyFind (hay needle : List Char) (start : Int) : Int :=
  let st0 : Int := if start < 0 then (hay.length : Int) + start else start
  let st : Int := if st0 < 0 then 0 else st0
  match pyFindNat hay needle st.toNat with
  | some i => (i : Int)
  | none => -1

def rfindAux : List Char → Char → Nat → Option Nat → Option Nat
  | [], _, _, best => best
  | x :: t, c, i, best => rfindAux t c (i + 1) (if x = c then some i else best)

/-- Python `s.rfind(c)` for a single character: largest index of `c`, else `-1`. -/
def pyRFindChar (s : List Char) (c : Char) : Int :=
  match rfindAux s c 0 none with
  | some i => (i : Int)
  | none => -1

/-- Python `l[:n]` for an integer `n` (negative `n` counts from the end). -/
def pySliceTo {α : Type} (l : List α) (n : Int) : List α :=
  let stop0 : Int := if n < 0 then (l.length : Int) + n else n
  let stop : Int := if stop0 < 0 then 0 else stop0
  l.take stop.toNat

/-- Python `s[a:b]` (negative indices count from the end, clamped). -/
def pySlice (s : List Char) (a b : Int) : List Char :=
  let norm : Int → Int := fun i =>
    let j : Int := if i < 0 then (s.length : Int) + i else i
    if j < 0 then 0 else j
  ((pySliceTo s (norm b))).drop (norm a).toNat

/-- Python `s.startswith("\x7b")`: the first character is an opening brace. -/
def startsWithBrace : List Char → Bool
  | [] => false
  | c :: _ => c = '\x7b'

/-! ## JSON values and `json.loads`

`JValue` models the values produced by Python's `json.loads`: `None`, `bool`,
`int`, `str`, `list`, `dict`.  Numbers are modelled as integers (the payloads
relevant to the verified claims carry only integer numbers; floating point is
out of scope).  Objects keep Python-dict semantics: parsing a duplicate key
overwrites the earlier value in place, so field lists hold distinct keys. -/

inductive JValue : Type where
  | jnull : JValue
  | jbool : Bool → JValue
  | jnum : Int → JValue
  | jstr : List Char → JValue
  | jarr : List JValue → JValue
  | jobj : List (List Char × JValue) → JValue
deriving Repr

/-- JSON whitespace accepted between tokens by `json.loads`. -/
def jsonWs (c : Char) : Bool :=
  c = ' ' || c = '\t' || c = '\n' || c = '\r'

def skipWs (s : List Char) : List Char := s.dropWhile jsonWs

def escChar : Char → Option Char
  | '\"' => some '\"'
  | '\\' => some '\\'
  | '/' => some '/'
  | 'n' => some '\n'
  | 't' => some '\t'
  | 'r' => some '\r'
  | 'b' => some '\x08'
  | 'f' => some '\x0c'
  | _ => none

/-- Decode the remainder of a JSON string literal (the opening quote is
already consumed); returns the decoded text and the unconsumed input. -/
def parseJStr (fuel : Nat) (s : List Char) : Option (List Char × List Char) :=
  match fuel with
  | 0 => none
  | f + 1 =>
    match s with
    | [] => none
    | c :: rest =>
      if c = '\"' then some ([], rest)
      else if c = '\\' then
        match rest with
        | [] => none
        | e :: rest2 =>
          match escChar e with
          | none => none
          | some ch =>
            match parseJStr f rest2 with
            | none => none
            | some (t, r) => some (ch :: t, r)
      else
        match parseJStr f rest with
        | none => none
        | some (t, r) => some (c :: t, r)

def isDigit (c : Char) : Bool := '0' ≤ c && c ≤ '9'

def digitsToNat (ds : List Char) : Nat :=
  ds.foldl (fun a c => a * 10 + (c.toNat - 48)) 0

/-- Parse a (possibly negated) integer literal. -/
def parseJNum (s : List Char) : Option (Int × List Char) :=
  let (neg, s1) := match s with
    | '-' :: t => (true, t)
    | _ => (false, s)
  let ds := s1.takeWhile isDigit
  let rest := s1.dropWhile isDigit
  if ds = [] then none
  else some ((if neg then -(digitsToNat ds : Int) else (digitsToNat ds : Int)), rest)

/-- Insert a key into an object, Python-dict style: an existing key keeps its
position but its value is overwritten; a new key is appended. -/
def objInsert (fields : List (List Char × JValue)) (k : List Char) (v : JValue) :
    List (List Char × JValue) :=
  match fields with
  | [] => [(k, v)]
  | (k0, v0) :: rest =>
    if k0 = k then (k0, v) :: rest else (k0, v0) :: objInsert rest k v

mutual

/-- Recursive-descent JSON value parser (fueled; fuel only bounds nesting,
`json_loads` below always supplies enough). -/
def parseVal (fuel : Nat) (s : List Char) : Option (JValue × List Char) :=
  match fuel with
  | 0 => none
  | f + 1 =>
    match skipWs s with
    | [] => none
    | c :: rest =>
      if c = 'n' then
        if matchesAt rest ['u', 'l', 'l'] then some (.jnull, rest.drop 3) else none
      else if c = 't' then
        if matchesAt rest ['r', 'u', 'e'] then some (.jbool true, rest.drop 3) else none
      else if c = 'f' then
        if matchesAt rest ['a', 'l', 's', 'e'] then some (.jbool false, rest.drop 4) else none
      else if c = '\"' then
        match parseJStr (f + 1) rest with
        | some (t, r) => some (.jstr t, r)
        | none => none
      else if c = '[' then parseArr f (skipWs rest)
      else if c = '\x7b' then parseObjBody f (skipWs rest)
      else
        match parseJNum (c :: rest) with
        | some (n, r) => some (.jnum n, r)
        | none => none

def parseArr (fuel : Nat) (s : List Char) : Option (JValue × List Char) :=
  match fuel with
  | 0 => none
  | f + 1 =>
    match s with
    | ']' :: r => some (.jarr [], r)
    | _ =>
      match parseVal f s with
      | none => none
      | some (v, r) => parseArrRest f (skipWs r) [v]

def parseArrRest (fuel : Nat) (s : List Char) (acc : List JValue) :
    Option (JValue × List Char) :=
  match fuel with
  | 0 => none
  | f + 1 =>
    match s with
    | ']' :: r => some (.jarr acc.reverse, r)
    | ',' :: r =>
      match parseVal f (skipWs r) with
      | none => none
      | some (v, r2) => parseArrRest f (skipWs r2) (v :: acc)
    | _ => none

def parseObjBody (fuel : Nat) (s : List Char) : Option (JValue × List Char) :=
  match fuel with
  | 0 => none
  | f + 1 =>
    match s with
    | '\x7d' :: r => some (.jobj [], r)
    | _ => parseObjRest f s []

def parseObjRest (fuel : Nat) (s : List Char) (acc : List (List Char × JValue)) :
    Option (JValue × List Char) :=
  match fuel with
  | 0 => none
  | f + 1 =>
    match s with
    | '\"' :: r =>
      match parseJStr f r with
      | none => none
      | some (k, r1) =>
        match skipWs r1 with
        | ':' :: r2 =>
          match parseVal f (skipWs r2) with
          | none => none
          | some (v, r3) =>
            match skipWs r3 with
            | ',' :: r4 =>
              match skipWs r4 with
              | r5 => parseObjRest f r5 (objInsert acc k v)
            | '\x7d' :: r4 => some (.jobj (objInsert acc k v), r4)
            | _ => none
        | _ => none
    | _ => none

end

/-- Model of Python `json.loads`: decode one JSON value and require that only
whitespace remains; `none` models a raised `json.JSONDecodeError`. -/
def json_loads (s : List Char) : Option JValue :=
  match parseVal (2 * s.length + 4) s with
  | some (v, rest) => if skipWs rest = [] then some v else none
  | none => none

/-! ## Python coercions used by the validator: `str(...)`, `int(...)`, `in` -/

def joinSep (sep : List Char) : List (List Char) → List Char
  | [] => []
  | [x] => x
  | x :: xs => x ++ sep ++ joinSep sep xs

mutual

/-- Python `repr` of a decoded JSON value (used by `str` on containers);
string reprs are simplified to plain single-quoted text, which only affects
the rendering of nested containers, never their (non-)emptiness. -/
def pyRepr : JValue → List Char
  | .jnull => ['N', 'o', 'n', 'e']
  | .jbool true => ['T', 'r', 'u', 'e']
  | .jbool false => ['F', 'a', 'l', 's', 'e']
  | .jnum n => (toString n).data
  | .jstr s => '\x27' :: (s ++ ['\x27'])
  | .jarr xs => '[' :: (pyReprElems xs ++ [']'])
  | .jobj fs => '\x7b' :: (pyReprFields fs ++ ['\x7d'])

def pyReprElems : List JValue → List Char
  | [] => []
  | [x] => pyRepr x
  | x :: y :: xs => pyRepr x ++ [',', ' '] ++ pyReprElems (y :: xs)

def pyReprFields : List (List Char × JValue) → List Char
  | [] => []
  | [(k, v)] => '\x27' :: (k ++ ['\x27', ':', ' ']) ++ pyRepr v
  | (k, v) :: f :: fs =>
    '\x27' :: (k ++ ['\x27', ':', ' ']) ++ pyRepr v ++ [',', ' '] ++ pyReprFields (f :: fs)

end

/-- Python `str(value)` for a decoded JSON value. -/
def pyStr : JValue → List Char
  | .jstr s => s
  | v => pyRepr v

/-- Parse the text accepted by Python `int(str)` after stripping: an optional
sign followed by at least one digit. -/
def parseIntText (s : List Char) : Option Int :=
  match s with
  | '-' :: ds => if ds ≠ [] ∧ ds.all isDigit then some (-(digitsToNat ds : Int)) else none
  | '+' :: ds => if ds ≠ [] ∧ ds.all isDigit then some ((digitsToNat ds : Int)) else none
  | ds => if ds ≠ [] ∧ ds.all isDigit then some ((digitsToNat ds : Int)) else none

/-- Python `int(value)`: identity on ints, `0`/`1` on bools, digit parsing on
strings; `none` models a raised `TypeError`/`ValueError`. -/
def pyInt : JValue → Option Int
  | .jnum n => some n
  | .jbool b => some (if b then 1 else 0)
  | .jstr s => parseIntText (pyStrip s)
  | _ => none

/-- Substring test, modelling Python `needle in hay` for strings. -/
def containsSub (hay needle : List Char) : Bool :=
  (pyFindNat hay needle 0).isSome

/-- Python `key in value` for a decoded JSON value: key membership on dicts,
substring on strings, element equality on lists; `.error ()` models the
`TypeError` raised on ints, bools and `None`. -/
def pyContains (v : JValue) (key : List Char) : Except Unit Bool :=
  match v with
  | .jobj fields => .ok (fields.any (fun kv => kv.1 = key))
  | .jstr s => .ok (containsSub s key)
  | .jarr xs => .ok (xs.any (fun x => match x with
      | .jstr t => t = key
      | _ => false))
  | _ => .error ()

/-- First-match association lookup.  Parsed objects have distinct keys
(`objInsert`), so this is Python dict lookup. -/
def jlookup (fields : List (List Char × JValue)) (key : List Char) : Option JValue :=
  match fields with
  | [] => none
  | (k, v) :: rest => if k = key then some v else jlookup rest key

/-- Python `value[key]` for a string key: dict lookup; `none` also covers the
`TypeError` raised by non-dict values. -/
def pyGetItem (v : JValue) (key : List Char) : Option JValue :=
  match v with
  | .jobj fields => jlookup fields key
  | _ => none

/-- Python iteration `for x in value`: lists yield elements, strings yield
their characters as one-character strings, dicts yield their keys; `.error ()`
models the `TypeError` raised by ints, bools and `None`. -/
def pyIterate : JValue → Except Unit (List JValue)
  | .jarr xs => .ok xs
  | .jstr s => .ok (s.map (fun c => .jstr [c]))
  | .jobj fields => .ok (fields.map (fun kv => .jstr kv.1))
  | _ => .error ()

/-! ## Data model

`Task` and `GeneratedRole` live in `game/core/models/data_models.py`, which is
not among the sources; their field lists are modelled from the specification
(§3) and from how `distributor.py` and the test harness use them. -/

/-- Modelled from the spec (§3 Task): the `data_models.py` definition is not
among the sources; fields follow the spec and the constructor calls in the
test files. -/
structure Task where
  task_id : List Char
  description : List Char
  domain : List Char
  requirements : List (List Char)
  constraints : List (List Char)
  max_iterations : Nat
deriving Repr, DecidableEq

/-- Modelled from the spec (§3 GeneratedRole): plain record as produced by
`Distributor._validate_generated_roles`. -/
structure GeneratedRole where
  name : List Char
  role_type : List Char
  responsibilities : List (List Char)
  skills : List (List Char)
  output_requirements : List Char
  priority_level : Int
deriving Repr, DecidableEq

/-- Modelled from the spec (§4.1): the request record built at the top of
`generate_roles`. -/
structure RoleGenerationRequest where
  task_description : List Char
  domain : List Char
  expected_count_range : Int × Int
  constraints : List (List Char)
deriving Repr, DecidableEq

/-- The failures the distributor can raise.  The Python code raises
`RuntimeError` with distinct messages (and lets `TypeError` propagate); each
constructor records one exit point of `distributor.py`. -/
inductive DistError : Type where
  /-- `RuntimeError("NagaAgent API未初始化")` in `_call_llm_api`. -/
  | apiNotInit : DistError
  /-- `RuntimeError("角色解析失败: 无法解析JSON")` in `_parse_roles_from_response`. -/
  | roleJsonDecode : DistError
  /-- A `TypeError` propagating out of the role path (non-mapping payload). -/
  | roleTypeErr : DistError
  /-- `RuntimeError("角色生成失败: 大模型返回空结果")` in `generate_roles`. -/
  | roleEmpty : DistError
  /-- `RuntimeError("权限解析失败: 无法解析JSON")` in `_parse_permissions_from_response`. -/
  | permJsonDecode : DistError
  /-- `RuntimeError("权限解析失败: 缺少permissions字段")` in `_parse_permissions_from_response`. -/
  | permMissingKey : DistError
  /-- A `TypeError` propagating out of the permission path. -/
  | permTypeErr : DistError
deriving Repr, DecidableEq

/-- The spec's §7 taxonomy class `RoleGenerationError`: every failure of the
role-generation path (the code realizes the taxonomy with `RuntimeError`s
and propagated `TypeError`s). -/
def isRoleGenerationError (e : DistError) : Prop :=
  e = .roleJsonDecode ∨ e = .roleTypeErr ∨ e = .roleEmpty

/-- The spec's §7 taxonomy class `PermissionAssignmentError`: every failure of
the permission-assignment path. -/
def isPermAssignmentError (e : DistError) : Prop :=
  e = .permJsonDecode ∨ e = .permMissingKey ∨ e = .permTypeErr

/-! ## Payload extraction (`_parse_roles_from_response` lines 168-180 and
`_parse_permissions_from_response` lines 324-334)

The two methods start with the same (duplicated) extraction code; each is
translated separately below, mirroring the duplication in the source. -/

def fence_json : List Char := ['\x60', '\x60', '\x60', 'j', 's', 'o', 'n']

def fence3 : List Char := ['\x60', '\x60', '\x60']

/-- Payload extraction of `_parse_roles_from_response` (lines 168-180):
`find("\x60\x60\x60json")`, `find("\x60\x60\x60", json_start + 7)`; if both
found, the stripped text in between; otherwise the stripped response,
truncated after the last closing brace when it starts with an opening one. -/
def extract_payload_roles (response : List Char) : List Char :=
  let json_start := pyFind response fence_json 0
  let json_end := pyFind response fence3 (json_start + 7)
  if json_start ≠ -1 ∧ json_end ≠ -1 then
    pyStrip (pySlice response (json_start + 7) json_end)
  else
    let json_str := pyStrip response
    if startsWithBrace json_str then
      pySliceTo json_str (pyRFindChar json_str '\x7d' + 1)
    else json_str

/-- Payload extraction of `_parse_permissions_from_response` (lines 324-334);
the source duplicates the role-side extraction verbatim. -/
def extract_payload_perms (response : List Char) : List Char :=
  let json_start := pyFind response fence_json 0
  let json_end := pyFind response fence3 (json_start + 7)
  if json_start ≠ -1 ∧ json_end ≠ -1 then
    pyStrip (pySlice response (json_start + 7) json_end)
  else
    let json_str := pyStrip response
    if startsWithBrace json_str then
      pySliceTo json_str (pyRFindChar json_str '\x7d' + 1)
    else json_str

def rolesKey : List Char := ['r', 'o', 'l', 'e', 's']

def permissionsKey : List Char :=
  ['p', 'e', 'r', 'm', 'i', 's', 's', 'i', 'o', 'n', 's']

/-- Lines 183-189 of `_parse_roles_from_response`, applied to the decoded
payload: a decode failure raises; `"roles" in data` then either returns
`data["roles"]`, logs a warning and returns `[]` when the key is missing, or
raises `TypeError` on non-container data. -/
def roles_of_payload (o : Option JValue) : Except DistError JValue :=
  match o with
  | none => .error .roleJsonDecode
  | some data =>
    match pyContains data rolesKey with
    | .error _ => .error .roleTypeErr
    | .ok true =>
      match pyGetItem data rolesKey with
      | some v => .ok v
      | none => .error .roleTypeErr
    | .ok false => .ok (.jarr [])

/-- `Distributor._parse_roles_from_response` (lines 165-197). -/
def parse_roles_from_response (response : List Char) : Except DistError JValue :=
  roles_of_payload (json_loads (extract_payload_roles response))

/-- Lines 336-341 of `_parse_permissions_from_response`: a decode failure
raises; a present `permissions` key is returned as-is; a missing key raises
`RuntimeError("权限解析失败: 缺少permissions字段")`. -/
def perms_of_payload (o : Option JValue) : Except DistError JValue :=
  match o with
  | none => .error .permJsonDecode
  | some data =>
    match pyContains data permissionsKey with
    | .error _ => .error .permTypeErr
    | .ok true =>
      match pyGetItem data permissionsKey with
      | some v => .ok v
      | none => .error .permTypeErr
    | .ok false => .error .permMissingKey

/-- `Distributor._parse_permissions_from_response` (lines 321-348); the
`roles` argument of the Python method is unused by its body. -/
def parse_permissions_from_response (response : List Char) : Except DistError JValue :=
  perms_of_payload (json_loads (extract_payload_perms response))

/-! ## Validation (`_validate_generated_roles`, `_ensure_list`) -/

/-- `Distributor._ensure_list` (lines 236-243): lists keep their non-blank
elements stringified and stripped; a string becomes a singleton of its
stripped text unless blank; anything else becomes the empty list. -/
def ensure_list (value : JValue) : List (List Char) :=
  match value with
  | .jarr xs => xs.filterMap (fun item =>
      let s := pyStrip (pyStr item)
      if s = [] then none else some s)
  | .jstr s => if pyStrip s = [] then [] else [pyStrip s]
  | _ => []

def nameKey : List Char := ['n', 'a', 'm', 'e']
def roleTypeKey : List Char := ['r', 'o', 'l', 'e', '_', 't', 'y', 'p', 'e']
def respKey : List Char :=
  ['r', 'e', 's', 'p', 'o', 'n', 's', 'i', 'b', 'i', 'l', 'i', 't', 'i', 'e', 's']
def skillsKey : List Char := ['s', 'k', 'i', 'l', 'l', 's']
def outputReqKey : List Char :=
  ['o', 'u', 't', 'p', 'u', 't', '_', 'r', 'e', 'q', 'u', 'i', 'r', 'e', 'm', 'e',
   'n', 't', 's']
def prioKey : List Char :=
  ['p', 'r', 'i', 'o', 'r', 'i', 't', 'y', '_', 'l', 'e', 'v', 'e', 'l']

def required_fields : List (List Char) :=
  [nameKey, roleTypeKey, respKey, skillsKey, outputReqKey]

/-- The `all(field in role_data ...)` check (line 209); on ints, bools and
`None` the membership test itself raises `TypeError` (caught by the loop). -/
def allFieldsPresent (v : JValue) : Except Unit Bool :=
  match v with
  | .jnum _ | .jbool _ | .jnull => .error ()
  | _ => .ok (required_fields.all (fun k =>
      match pyContains v k with
      | .ok b => b
      | .error _ => false))

/-- The `GeneratedRole(...)` construction (lines 214-221): field accesses,
`str(...).strip()` and `_ensure_list` coercions, and
`int(role_data.get("priority_level", 5))`; `none` models any exception from
the accesses or from `int(...)`, caught by the per-candidate `except`. -/
def build_candidate (role_data : JValue) : Option GeneratedRole :=
  match pyGetItem role_data nameKey, pyGetItem role_data roleTypeKey,
        pyGetItem role_data respKey, pyGetItem role_data skillsKey,
        pyGetItem role_data outputReqKey with
  | some nv, some tv, some rv, some sv, some ov =>
    let prioRaw : JValue :=
      match role_data with
      | .jobj fields =>
        match jlookup fields prioKey with
        | some pv => pv
        | none => .jnum 5
      | _ => .jnum 5
    match pyInt prioRaw with
    | none => none
    | some p =>
      some { name := pyStrip (pyStr nv)
             role_type := pyStrip (pyStr tv)
             responsibilities := ensure_list rv
             skills := ensure_list sv
             output_requirements := pyStrip (pyStr ov)
             priority_level := p }
  | _, _, _, _, _ => none

/-- The body of the `for` loop of `_validate_generated_roles`
(lines 206-225) for one candidate: the required-field check, the
construction, and the basic-validity check of line 224; `none` models both
the explicit `continue`s and any exception caught by the per-candidate
`except`. -/
def validate_candidate (role_data : JValue) : Option GeneratedRole :=
  match allFieldsPresent role_data with
  | .error _ => none
  | .ok false => none
  | .ok true =>
    match build_candidate role_data with
    | none => none
    | some role =>
      if role.name ≠ [] ∧ role.role_type ≠ [] ∧
          role.responsibilities ≠ [] ∧ role.skills ≠ [] then
        some role
      else none

/-- Priority comparison used by line 232: `sorted(key=priority_level,
reverse=True)` orders by descending priority. -/
def prioGE (a b : GeneratedRole) : Prop :=
  b.priority_level ≤ a.priority_level

instance : DecidableRel prioGE := fun a b =>
  inferInstanceAs (Decidable (b.priority_level ≤ a.priority_level))

/-- Python `sorted(validated_roles, key=lambda x: x.priority_level,
reverse=True)`: Python's sort is stable, and with `reverse=True` it yields
descending priorities with equal-priority elements in original order; this is
extensionally the stable insertion sort under `prioGE`. -/
def sortDescByPriority (l : List GeneratedRole) : List GeneratedRole :=
  List.insertionSort prioGE l

/-- Lines 230-233 of `_validate_generated_roles`: trim an over-long validated
set to `sorted(...)[:max_count]`. -/
def trim_by_priority (validated : List GeneratedRole) (max_count : Int) :
    List GeneratedRole :=
  if (validated.length : Int) > max_count then
    pySliceTo (sortDescByPriority validated) max_count
  else validated

/-- `Distributor._validate_generated_roles` (lines 199-234).  The iteration
over `raw_roles` itself can raise `TypeError` (non-iterable payload), which
escapes the method; everything inside the loop is absorbed per candidate. -/
def validate_generated_roles (raw_roles : JValue)
    (request : RoleGenerationRequest) : Except DistError (List GeneratedRole) :=
  match pyIterate raw_roles with
  | .error _ => .error .roleTypeErr
  | .ok items =>
    let validated := items.filterMap validate_candidate
    .ok (trim_by_priority validated request.expected_count_range.2)

/-! ## Prompt builders

The spec (§1) excludes the literal wording of prompts from the core; the
builders below keep the data-dependent structure of the Python f-strings
(which fields appear, where, and how lists are joined) and abbreviate the
fixed literal text. -/

def intStr (n : Int) : List Char := (toString n).data

def nlChar : Char := '\n'

/-- The `constraints_text` block of `_build_role_generation_prompt`
(lines 95-97). -/
def constraintsText (constraints : List (List Char)) : List Char :=
  if constraints = [] then []
  else [nlChar] ++ "约束条件:".data ++ [nlChar] ++
    joinSep [nlChar] (constraints.map (fun c => "- ".data ++ c))

/-- `Distributor._build_role_generation_prompt` (lines 91-156); fixed literal
text abbreviated, interpolated data faithful. -/
def build_role_generation_prompt (request : RoleGenerationRequest) : List Char :=
  "# 任务:智能体角色生成 ... 任务描述: ".data ++ request.task_description ++
  " 领域类型: ".data ++ request.domain ++
  " 角色数量: ".data ++ intStr request.expected_count_range.1 ++ "-".data ++
  intStr request.expected_count_range.2 ++ "个角色".data ++
  constraintsText request.constraints ++
  " ... 领域参考 ... ".data ++ request.domain ++
  " ... 请立即开始生成角色方案:".data

/-- The `roles_info` lines of `_build_permission_assignment_prompt`
(lines 277-281): three lines per role, 1-based enumeration, first three
responsibilities joined by `", "`. -/
def permRoleLines : Nat → List GeneratedRole → List (List Char)
  | _, [] => []
  | i, role :: rest =>
    (intStr (i + 1) ++ ". ".data ++ role.name ++ "（".data ++
      role.role_type ++ "）".data) ::
    ("   - 职责:".data ++ joinSep ", ".data (role.responsibilities.take 3)) ::
    ("   - 优先级:".data ++ intStr role.priority_level) ::
    permRoleLines (i + 1) rest

/-- `Distributor._build_permission_assignment_prompt` (lines 275-319); fixed
literal text abbreviated, interpolated data faithful. -/
def build_permission_assignment_prompt (roles : List GeneratedRole) : List Char :=
  "# 任务:角色协作权限分配 ... 角色信息: ".data ++
  joinSep [nlChar] (permRoleLines 0 roles) ++
  " ... 请根据角色特点和协作需求,设计最优的权限分配方案:".data

/-! ## The two operations

The text-generation capability (`naga_conversation.get_response`) is an
external oracle: a function from the prompt to the returned text.  `none`
models an uninitialized API (`_call_llm_api` raises).  Each operation returns
its result together with the list of prompts sent to the capability, so that
call counts are observable. -/

/-- `Distributor._call_llm_api` (lines 158-163), threading the list of prompts
sent so far. -/
def call_llm_api (oracle : List Char → List Char) (prompt : List Char)
    (sent : List (List Char)) : List Char × List (List Char) :=
  (oracle prompt, sent ++ [prompt])

/-- The `RoleGenerationRequest(...)` construction at lines 62-67. -/
def mk_request (task : Task) (expected_count_range : Int × Int) :
    RoleGenerationRequest :=
  { task_description := task.description
    domain := task.domain
    expected_count_range := expected_count_range
    constraints := task.constraints }

/-- Lines 76-85 of `generate_roles`: parse, validate, and fail on an empty
survivor set (`raise RuntimeError("角色生成失败: 大模型返回空结果")`). -/
def roles_pipeline (response : List Char) (request : RoleGenerationRequest) :
    Except DistError (List GeneratedRole) :=
  match parse_roles_from_response response with
  | .error e => .error e
  | .ok raw =>
    match validate_generated_roles raw request with
    | .error e => .error e
    | .ok validated =>
      if validated = [] then .error .roleEmpty else .ok validated

/-- `Distributor.generate_roles` (lines 47-89).  Returns the result together
with the list of prompts sent to the text-generation capability. -/
def generate_roles (naga_conversation : Option (List Char → List Char))
    (task : Task) (expected_count_range : Int × Int) :
    Except DistError (List GeneratedRole) × List (List Char) :=
  match naga_conversation with
  | none => (.error .apiNotInit, [])
  | some oracle =>
    let request := mk_request task expected_count_range
    let generation_prompt := build_role_generation_prompt request
    let call := call_llm_api oracle generation_prompt []
    (roles_pipeline call.1 request, call.2)

/-- `Distributor.assign_collaboration_permissions` (lines 246-273).  Returns
the parsed permissions value together with the list of prompts sent. -/
def assign_collaboration_permissions
    (naga_conversation : Option (List Char → List Char))
    (roles : List GeneratedRole) :
    Except DistError JValue × List (List Char) :=
  match naga_conversation with
  | none => (.error .apiNotInit, [])
  | some oracle =>
    let permission_prompt := build_permission_assignment_prompt roles
    let call := call_llm_api oracle permission_prompt []
    (parse_permissions_from_response call.1, call.2)

/-! ## The extraction rule as the C2 claim words it

Claim C2 describes the fallback as "decoding the first top-level `\x7b...\x7d`
span occurring anywhere in the response".  The definitions below follow the
claim's words (not the source), to be compared against the source-derived
`extract_payload_roles`. -/

/-- Scan from an opening brace, returning the prefix through the matching
(balance-0) closing brace. -/
def spanScan : List Char → Nat → List Char → Option (List Char)
  | [], _, _ => none
  | c :: t, depth, acc =>
    if c = '\x7b' then spanScan t (depth + 1) (c :: acc)
    else if c = '\x7d' then
      if depth = 1 then some (c :: acc).reverse
      else spanScan t (depth - 1) (c :: acc)
    else spanScan t depth (c :: acc)

/-- The first top-level `\x7b...\x7d` span occurring anywhere in the text. -/
def firstTopLevelSpan (s : List Char) : Option (List Char) :=
  match s.dropWhile (fun c => !(c = '\x7b')) with
  | [] => none
  | l => spanScan l 0 []

/-- Follows the words of claim C2 (it is not a translation of the source):
use the fenced block when one is complete, otherwise decode the first
top-level brace span occurring anywhere in the response. -/
def extract_payload_claimedC2 (response : List Char) : List Char :=
  let json_start := pyFind response fence_json 0
  let json_end := pyFind response fence3 (json_start + 7)
  if json_start ≠ -1 ∧ json_end ≠ -1 then
    pyStrip (pySlice response (json_start + 7) json_end)
  else
    match firstTopLevelSpan response with
    | some s => s
    | none => pyStrip response

/-- The role parser as claim C2 describes it. -/
def parse_roles_claimedC2 (response : List Char) : Except DistError JValue :=
  roles_of_payload (json_loads (extract_payload_claimedC2 response))

/-- The amended fallback rule, phrased as the code behaves: when no complete
fenced block exists, strip the response; if the stripped text starts with an
opening brace, keep its prefix through the last closing brace (empty when
there is none); otherwise decode the entire stripped text. -/
def extract_payload_amended (response : List Char) : List Char :=
  let json_start := pyFind response fence_json 0
  let json_end := pyFind response fence3 (json_start + 7)
  if json_start ≠ -1 ∧ json_end ≠ -1 then
    pyStrip (pySlice response (json_start + 7) json_end)
  else
    let stripped := pyStrip response
    match stripped with
    | '\x7b' :: _ => pySliceTo stripped (pyRFindChar stripped '\x7d' + 1)
    | _ => stripped

/-! ## Spec-modelled self-play round engine (for claim C9)

`start_game_session` lives in `game/core/self_game/game_engine.py`, which is
not among the sources (only its callers in the test harness are).  The round
loop and its DECIDE rule are modelled from the specification §4.4. -/

/-- Modelled from the spec (§4.4 DECIDE): the per-round continuation
decision. -/
inductive RoundDecision : Type where
  | continueRound : RoundDecision
  | terminateSession : RoundDecision
deriving Repr, DecidableEq

/-- Modelled from the spec (§3 RoundRecord): the fields claim C9 observes. -/
structure RoundRecord where
  round_number : Nat
  decision : RoundDecision
  mean_critical_score : Rat
  pareto_front : List Nat
deriving Repr, DecidableEq

/-- Modelled from the spec (§4.4 phases 1-4): the aggregate outcome one round
obtains from the external capabilities, abstracted as an oracle indexed by
round number. -/
structure RoundData where
  mean_critical_score : Rat
  pareto_front : List Nat
deriving Repr, DecidableEq

/-- Modelled from the spec (§3 Session): the task and the ordered round
records. -/
structure SessionModel where
  task : Task
  rounds : List RoundRecord
deriving Repr, DecidableEq

/-- Modelled from the spec (§4.4 DECIDE): terminate when `round_number`
reaches `max_iterations`, or when the round-over-round improvement of the
mean critical score falls below `eps` and the Pareto front has collapsed to a
single candidate. -/
def decideRound (prev : Option Rat) (d : RoundData) (n maxIter : Nat)
    (eps : Rat) : RoundDecision :=
  if maxIter ≤ n then .terminateSession
  else
    match prev with
    | some p =>
      if d.mean_critical_score - p < eps ∧ d.pareto_front.length = 1 then
        .terminateSession
      else .continueRound
    | none => .continueRound

/-- Modelled from the spec (§4.4): the round loop.  `fuel` only guards
recursion; termination of a session is decided by `decideRound`. -/
def run_rounds (oracle : Nat → RoundData) (eps : Rat) (maxIter : Nat) :
    Nat → Nat → Option Rat → List RoundRecord
  | 0, _, _ => []
  | fuel + 1, n, prev =>
    let d := oracle n
    let dec := decideRound prev d n maxIter eps
    let record : RoundRecord :=
      { round_number := n
        decision := dec
        mean_critical_score := d.mean_critical_score
        pareto_front := d.pareto_front }
    match dec with
    | .terminateSession => [record]
    | .continueRound =>
      record :: run_rounds oracle eps maxIter fuel (n + 1) (some d.mean_critical_score)

/-- Modelled from the spec (§4.4, §6): `start_game_session(task, ...)`.
Rounds are numbered from 1; the fuel handed to the loop is deliberately
larger than `max_iterations`, so the round bound can only come from the
DECIDE rule. -/
def start_game_session (oracle : Nat → RoundData) (eps : Rat) (task : Task) :
    SessionModel :=
  { task := task
    rounds := run_rounds oracle eps task.max_iterations
      (task.max_iterations + 1) 1 none }

/-! ## Stable selection, characterized (for claim C4)

"Top `max` by descending priority with ties in original order" is made
precise by decorating each role with its original position and sorting by the
total order `lexLE`: higher priority first, equal priorities by ascending
original position.  `sortDescByPriority` (the model of Python's
`sorted(..., reverse=True)`) is proved to coincide with that sort. -/

/-- Decorate a list with original positions, starting at `i`. -/
def idx {α : Type} : Nat → List α → List (Nat × α)
  | _, [] => []
  | i, x :: xs => (i, x) :: idx (i + 1) xs

/-- The claim's selection order on position-decorated roles: strictly higher
priority first, equal priorities in original order. -/
def lexLE (a b : Nat × GeneratedRole) : Prop :=
  b.2.priority_level < a.2.priority_level ∨
    (a.2.priority_level = b.2.priority_level ∧ a.1 ≤ b.1)

instance : DecidableRel lexLE := fun a b =>
  inferInstanceAs (Decidable (_ ∨ _))

instance : IsTotal (Nat × GeneratedRole) lexLE :=
  ⟨fun a b => by
    unfold lexLE
    omega⟩

instance : IsTrans (Nat × GeneratedRole) lexLE :=
  ⟨fun a b c hab hbc => by
    unfold lexLE at *
    omega⟩

theorem mem_idx_ge {α : Type} (i : Nat) (l : List α) :
    ∀ p ∈ idx i l, i ≤ p.1 := by
  induction l generalizing i with
  | nil => intro p hp; cases hp
  | cons x xs ih =>
    intro p hp
    cases hp with
    | head => exact Nat.le_refl i
    | tail _ h => exact Nat.le_trans (Nat.le_succ i) (ih (i + 1) p h)

theorem map_snd_orderedInsert (x : GeneratedRole) (i : Nat)
    (d : List (Nat × GeneratedRole)) (h : ∀ p ∈ d, i < p.1) :
    (List.orderedInsert lexLE (i, x) d).map Prod.snd =
      List.orderedInsert prioGE x (d.map Prod.snd) := by
  induction d with
  | nil => rfl
  | cons q qs ih =>
    obtain ⟨j, y⟩ := q
    have hij : i < j := h (j, y) (List.mem_cons_self _ _)
    have hiff : lexLE (i, x) (j, y) ↔ prioGE x y := by
      unfold lexLE prioGE
      simp only
      omega
    simp only [List.orderedInsert, List.map_cons]
    by_cases hc : lexLE (i, x) (j, y)
    · rw [if_pos hc, if_pos (hiff.mp hc)]
      simp
    · rw [if_neg hc, if_neg (fun hg => hc (hiff.mpr hg))]
      simp only [List.map_cons, List.cons.injEq, true_and]
      exact ih (fun p hp => h p (List.mem_cons_of_mem _ hp))

theorem sortDesc_eq_lexSort (l : List GeneratedRole) :
    ∀ i, sortDescByPriority l = (List.insertionSort lexLE (idx i l)).map Prod.snd := by
  induction l with
  | nil => intro i; rfl
  | cons x xs ih =>
    intro i
    have hmem : ∀ p ∈ List.insertionSort lexLE (idx (i + 1) xs), i < p.1 := by
      intro p hp
      have hp' : p ∈ idx (i + 1) xs :=
        (List.perm_insertionSort lexLE (idx (i + 1) xs)).mem_iff.mp hp
      exact Nat.lt_of_lt_of_le (Nat.lt_succ_self i) (mem_idx_ge (i + 1) xs p hp')
    calc sortDescByPriority (x :: xs)
        = List.orderedInsert prioGE x (sortDescByPriority xs) := rfl
      _ = List.orderedInsert prioGE x
            ((List.insertionSort lexLE (idx (i + 1) xs)).map Prod.snd) := by
            rw [ih (i + 1)]
      _ = (List.orderedInsert lexLE (i, x)
            (List.insertionSort lexLE (idx (i + 1) xs))).map Prod.snd := by
            rw [map_snd_orderedInsert x i _ hmem]
      _ = (List.insertionSort lexLE (idx i (x :: xs))).map Prod.snd := rfl

/-! ## Helper lemmas about the operations -/

theorem any_eq_false_of_jlookup_none (fields : List (List Char × JValue))
    (k : List Char) (h : jlookup fields k = none) :
    fields.any (fun kv => kv.1 = k) = false := by
  induction fields with
  | nil => rfl
  | cons kv rest ih =>
    obtain ⟨k0, v0⟩ := kv
    unfold jlookup at h
    by_cases hk : k0 = k
    · rw [if_pos hk] at h
      exact absurd h (by simp)
    · rw [if_neg hk] at h
      simp only [List.any_cons, ih h, Bool.or_false]
      simpa using hk

theorem jlookup_some_of_any (fields : List (List Char × JValue))
    (k : List Char) (h : fields.any (fun kv => kv.1 = k) = true) :
    ∃ v, jlookup fields k = some v := by
  induction fields with
  | nil => simp at h
  | cons kv rest ih =>
    obtain ⟨k0, v0⟩ := kv
    by_cases hk : k0 = k
    · exact ⟨v0, by unfold jlookup; rw [if_pos hk]⟩
    · have h' : rest.any (fun kv => kv.1 = k) = true := by
        rw [List.any_cons] at h
        dsimp only at h
        rw [decide_eq_false hk, Bool.false_or] at h
        exact h
      obtain ⟨v, hv⟩ := ih h'
      exact ⟨v, by unfold jlookup; rw [if_neg hk]; exact hv⟩

theorem roles_pipeline_ok_ne_nil (response : List Char)
    (request : RoleGenerationRequest) (l : List GeneratedRole)
    (h : roles_pipeline response request = .ok l) : l ≠ [] := by
  unfold roles_pipeline at h
  split at h
  · exact absurd h (by simp)
  · split at h
    · exact absurd h (by simp)
    · split at h
      · exact absurd h (by simp)
      · next hne =>
        cases h
        exact hne

theorem validate_generated_roles_congr (raw : JValue)
    (req req' : RoleGenerationRequest)
    (h : req.expected_count_range.2 = req'.expected_count_range.2) :
    validate_generated_roles raw req = validate_generated_roles raw req' := by
  unfold validate_generated_roles
  rw [h]

theorem roles_pipeline_congr (response : List Char)
    (req req' : RoleGenerationRequest)
    (h : req.expected_count_range.2 = req'.expected_count_range.2) :
    roles_pipeline response req = roles_pipeline response req' := by
  have hv : ∀ raw, validate_generated_roles raw req =
      validate_generated_roles raw req' :=
    fun raw => validate_generated_roles_congr raw req req' h
  unfold roles_pipeline
  simp only [hv]

theorem roles_pipeline_empty (response : List Char)
    (request : RoleGenerationRequest) (raw : JValue)
    (hp : parse_roles_from_response response = .ok raw)
    (hv : validate_generated_roles raw request = .ok []) :
    roles_pipeline response request = .error .roleEmpty := by
  unfold roles_pipeline
  rw [hp]
  dsimp only
  rw [hv]
  rfl

theorem roles_pipeline_survivors (response : List Char)
    (request : RoleGenerationRequest) (raw : JValue)
    (validated : List GeneratedRole)
    (hp : parse_roles_from_response response = .ok raw)
    (hv : validate_generated_roles raw request = .ok validated)
    (hne : validated ≠ []) :
    roles_pipeline response request = .ok validated := by
  unfold roles_pipeline
  rw [hp]
  dsimp only
  rw [hv]
  dsimp only
  rw [if_neg hne]

/-! ## Claim C1 -/

/-- Claim C1: for every task and count range, if zero candidate roles survive
validation then `generate_roles` fails with the empty-result
`RoleGenerationError` instead of returning; consequently every role list
`generate_roles` returns is non-empty. -/
theorem claim_C1_no_empty_role_list :
    (∀ (naga : Option (List Char → List Char)) (task : Task)
        (range : Int × Int) (l : List GeneratedRole),
      (generate_roles naga task range).1 = .ok l → l ≠ []) ∧
    (∀ (oracle : List Char → List Char) (task : Task) (range : Int × Int)
        (raw : JValue),
      parse_roles_from_response
          (oracle (build_role_generation_prompt (mk_request task range))) =
        .ok raw →
      validate_generated_roles raw (mk_request task range) = .ok [] →
      (generate_roles (some oracle) task range).1 = .error .roleEmpty) := by
  constructor
  · intro naga task range l h
    cases naga with
    | none => exact absurd h (by simp [generate_roles])
    | some oracle =>
      have h' : roles_pipeline
          (oracle (build_role_generation_prompt (mk_request task range)))
          (mk_request task range) = .ok l := h
      exact roles_pipeline_ok_ne_nil _ _ _ h'
  · intro oracle task range raw hp hv
    show roles_pipeline
        (oracle (build_role_generation_prompt (mk_request task range)))
        (mk_request task range) = .error .roleEmpty
    exact roles_pipeline_empty _ _ raw hp hv

def c1_task : Task :=
  { task_id := "t1".data
    description := "desc".data
    domain := "dom".data
    requirements := []
    constraints := []
    max_iterations := 3 }

def c1_good_resp : List Char :=
  ("```json\n\x7b\"roles\": [\x7b\"name\": \"dev\", \"role_type\": \"eng\", \"responsibilities\": [\"code\"], \"skills\": [\"python\"], \"output_requirements\": \"app\", \"priority_level\": 7\x7d]\x7d\n```").data

def c1_role : GeneratedRole :=
  { name := "dev".data
    role_type := "eng".data
    responsibilities := ["code".data]
    skills := ["python".data]
    output_requirements := "app".data
    priority_level := 7 }

def c1_empty_resp : List Char := ("```json\n\x7b\"roles\": []\x7d\n```").data

theorem claim_C1_witness :
    ([c1_role] : List GeneratedRole) ≠ [] ∧
    (generate_roles (some (fun _ => c1_empty_resp)) c1_task (3, 5)).1 =
      .error .roleEmpty :=
  ⟨claim_C1_no_empty_role_list.1 (some (fun _ => c1_good_resp)) c1_task (3, 5)
      [c1_role] rfl,
    claim_C1_no_empty_role_list.2 (fun _ => c1_empty_resp) c1_task (3, 5)
      (.jarr []) rfl rfl⟩

/-! ## Claim C2 -/

def c2_cex_response : List Char := ("note \x7b\"roles\": []\x7d").data

/-- Counterexample to claim C2 as stated: on this response the code does not
fall back to "the first top-level brace span occurring anywhere": the stripped
response does not start with a brace, the whole text is decoded and decoding
fails, while the parser the claim describes succeeds and yields an empty
`roles` array. -/
theorem claim_C2_counterexample :
    parse_roles_from_response c2_cex_response = .error .roleJsonDecode ∧
    parse_roles_claimedC2 c2_cex_response = .ok (.jarr []) :=
  ⟨rfl, rfl⟩

/-- A complete fenced block exists in the response. -/
def hasCompleteFence (response : List Char) : Prop :=
  pyFind response fence_json 0 ≠ -1 ∧
    pyFind response fence3 (pyFind response fence_json 0 + 7) ≠ -1

instance (response : List Char) : Decidable (hasCompleteFence response) :=
  inferInstanceAs (Decidable (_ ∧ _))

/-- Claim C2 as amended: the role parser decodes the stripped text between a
fenced-JSON opener and the next fence when a complete fenced block exists;
otherwise it strips the response and, when the stripped text starts with an
opening brace, decodes its prefix through the last closing brace, else the
entire stripped text; then it extracts the `roles` array from the decoded
object. -/
theorem claim_C2_amended_extraction (response : List Char) :
    (hasCompleteFence response →
      parse_roles_from_response response = roles_of_payload (json_loads
        (pyStrip (pySlice response (pyFind response fence_json 0 + 7)
          (pyFind response fence3 (pyFind response fence_json 0 + 7)))))) ∧
    (¬hasCompleteFence response →
      parse_roles_from_response response = roles_of_payload (json_loads
        (if startsWithBrace (pyStrip response) then
          pySliceTo (pyStrip response) (pyRFindChar (pyStrip response) '\x7d' + 1)
        else pyStrip response))) := by
  unfold parse_roles_from_response extract_payload_roles hasCompleteFence
  constructor
  · intro h
    rw [if_pos h]
  · intro h
    rw [if_neg h]

def c2_fenced_resp : List Char := ("```json\n\x7b\x7d\n```").data

theorem claim_C2_witness :
    (parse_roles_from_response c2_fenced_resp = roles_of_payload (json_loads
      (pyStrip (pySlice c2_fenced_resp (pyFind c2_fenced_resp fence_json 0 + 7)
        (pyFind c2_fenced_resp fence3 (pyFind c2_fenced_resp fence_json 0 + 7)))))) ∧
    (parse_roles_from_response c2_cex_response = roles_of_payload (json_loads
      (if startsWithBrace (pyStrip c2_cex_response) then
        pySliceTo (pyStrip c2_cex_response)
          (pyRFindChar (pyStrip c2_cex_response) '\x7d' + 1)
      else pyStrip c2_cex_response))) :=
  ⟨(claim_C2_amended_extraction c2_fenced_resp).1 (by decide),
    (claim_C2_amended_extraction c2_cex_response).2 (by decide)⟩

/-! ## Claim C7 -/

def c7_payload_resp : List Char := ("```json\n\x7b\x7d\n```").data

/-- Counterexample to claim C7 as stated: the two parsers do not "differ only
in which key they read from the decoded object".  On this response the
decoded payload is the empty mapping, so the key is absent for both parsers,
yet the role parser returns an empty array (lines 187-189) while the
permission parser fails with the missing-key error (lines 340-341). -/
theorem claim_C7_counterexample :
    parse_roles_from_response c7_payload_resp = .ok (.jarr []) ∧
    parse_permissions_from_response c7_payload_resp =
      .error .permMissingKey :=
  ⟨rfl, rfl⟩

/-- Claim C7 as amended: the JSON-payload extraction used by the permission
parser is extensionally identical to the one used by the role parser — for
every response string both procedures select the same substring to decode —
but beyond the key they read the parsers also differ in missing-key
handling: on a decoded mapping without its key, the role parser returns an
empty roles list while the permission parser fails with the missing-key
error. -/
theorem claim_C7_extraction_identical_amended (response : List Char) :
    extract_payload_roles response = extract_payload_perms response ∧
    (∀ fields, json_loads (extract_payload_roles response) =
        some (.jobj fields) →
      jlookup fields rolesKey = none →
      parse_roles_from_response response = .ok (.jarr [])) ∧
    (∀ fields, json_loads (extract_payload_perms response) =
        some (.jobj fields) →
      jlookup fields permissionsKey = none →
      parse_permissions_from_response response =
        .error .permMissingKey) := by
  refine ⟨rfl, ?_, ?_⟩
  · intro fields ho hnone
    unfold parse_roles_from_response roles_of_payload
    rw [ho]
    dsimp only [pyContains]
    rw [any_eq_false_of_jlookup_none fields rolesKey hnone]
  · intro fields ho hnone
    unfold parse_permissions_from_response perms_of_payload
    rw [ho]
    dsimp only [pyContains]
    rw [any_eq_false_of_jlookup_none fields permissionsKey hnone]

theorem claim_C7_witness :
    extract_payload_roles c7_payload_resp =
      extract_payload_perms c7_payload_resp ∧
    parse_roles_from_response c7_payload_resp = .ok (.jarr []) ∧
    parse_permissions_from_response c7_payload_resp =
      .error .permMissingKey :=
  ⟨(claim_C7_extraction_identical_amended c7_payload_resp).1,
    (claim_C7_extraction_identical_amended c7_payload_resp).2.1 [] rfl rfl,
    (claim_C7_extraction_identical_amended c7_payload_resp).2.2 [] rfl rfl⟩

/-! ## Claim C8 -/

/-- Claim C8: a successful `generate_roles` sends exactly one prompt to the
text-generation capability, and a successful
`assign_collaboration_permissions` sends exactly one more. -/
theorem claim_C8_single_capability_call :
    (∀ (oracle : List Char → List Char) (task : Task) (range : Int × Int)
        (l : List GeneratedRole),
      (generate_roles (some oracle) task range).1 = .ok l →
      (generate_roles (some oracle) task range).2.length = 1) ∧
    (∀ (oracle : List Char → List Char) (roles : List GeneratedRole)
        (m : JValue),
      (assign_collaboration_permissions (some oracle) roles).1 = .ok m →
      (assign_collaboration_permissions (some oracle) roles).2.length = 1) :=
  ⟨fun _ _ _ _ _ => rfl, fun _ _ _ _ => rfl⟩

def c8_perm_resp : List Char :=
  ("```json\n\x7b\"permissions\": \x7b\"dev\": [\"qa\"]\x7d\x7d\n```").data

theorem claim_C8_witness :
    (generate_roles (some (fun _ => c1_good_resp)) c1_task (3, 5)).2.length = 1 ∧
    (assign_collaboration_permissions (some (fun _ => c8_perm_resp))
        [c1_role]).2.length = 1 :=
  ⟨claim_C8_single_capability_call.1 (fun _ => c1_good_resp) c1_task (3, 5)
      [c1_role] rfl,
    claim_C8_single_capability_call.2 (fun _ => c8_perm_resp) [c1_role]
      (.jobj [("dev".data, .jarr [.jstr "qa".data])]) rfl⟩

/-! ## Claim C4 -/

theorem pySliceTo_nonneg {α : Type} (l : List α) (mx : Int) (h : 0 ≤ mx) :
    pySliceTo l mx = l.take mx.toNat := by
  simp only [pySliceTo]
  rw [if_neg (by omega : ¬ mx < 0)]
  rw [if_neg (by omega : ¬ mx < 0)]

/-- Claim C4: a candidate with no `priority_level` field is assigned
priority 5; and when the validated set has more than `max` roles, the kept
roles are exactly the first `max` of the stable descending sort — the sort of
the position-decorated list by the total order `lexLE` (strictly higher
priority first, equal priorities by ascending original position), which is
`lexLE`-sorted and a permutation of the decorated input. -/
theorem claim_C4_priority_default_and_stable_trim :
    (∀ (fields : List (List Char × JValue)) (r : GeneratedRole),
      jlookup fields prioKey = none →
      validate_candidate (.jobj fields) = some r → r.priority_level = 5) ∧
    (∀ (l : List GeneratedRole) (mx : Int), 0 ≤ mx → (l.length : Int) > mx →
      trim_by_priority l mx =
        ((List.insertionSort lexLE (idx 0 l)).map Prod.snd).take mx.toNat ∧
      List.Sorted lexLE (List.insertionSort lexLE (idx 0 l)) ∧
      (List.insertionSort lexLE (idx 0 l)).Perm (idx 0 l)) := by
  constructor
  · intro fields r h1 h2
    unfold validate_candidate at h2
    split at h2
    · exact absurd h2 (by simp)
    · exact absurd h2 (by simp)
    · split at h2
      · exact absurd h2 (by simp)
      · next role hrole =>
        split at h2
        · cases h2
          unfold build_candidate at hrole
          split at hrole
          · dsimp only at hrole
            rw [h1] at hrole
            dsimp only [pyInt] at hrole
            cases hrole
            rfl
          all_goals exact absurd hrole (by simp)
        · exact absurd h2 (by simp)
  · intro l mx h0 hlen
    refine ⟨?_, List.sorted_insertionSort lexLE (idx 0 l),
      List.perm_insertionSort lexLE (idx 0 l)⟩
    unfold trim_by_priority
    rw [if_pos hlen, ← sortDesc_eq_lexSort l 0]
    exact pySliceTo_nonneg _ mx h0

def c4_fields : List (List Char × JValue) :=
  [(nameKey, .jstr "pm".data),
   (roleTypeKey, .jstr "mgmt".data),
   (respKey, .jarr [.jstr "plan".data]),
   (skillsKey, .jarr [.jstr "scrum".data]),
   (outputReqKey, .jstr "plan doc".data)]

def c4_default_role : GeneratedRole :=
  { name := "pm".data
    role_type := "mgmt".data
    responsibilities := ["plan".data]
    skills := ["scrum".data]
    output_requirements := "plan doc".data
    priority_level := 5 }

def c4_mkrole (nm : List Char) (p : Int) : GeneratedRole :=
  { name := nm
    role_type := "t".data
    responsibilities := ["r".data]
    skills := ["s".data]
    output_requirements := "o".data
    priority_level := p }

def c4_list : List GeneratedRole :=
  [c4_mkrole "a".data 3, c4_mkrole "b".data 7, c4_mkrole "c".data 7]

theorem claim_C4_witness :
    c4_default_role.priority_level = 5 ∧
    (trim_by_priority c4_list 2 =
        ((List.insertionSort lexLE (idx 0 c4_list)).map Prod.snd).take
          (2 : Int).toNat ∧
      List.Sorted lexLE (List.insertionSort lexLE (idx 0 c4_list)) ∧
      (List.insertionSort lexLE (idx 0 c4_list)).Perm (idx 0 c4_list)) :=
  ⟨claim_C4_priority_default_and_stable_trim.1 c4_fields c4_default_role
      rfl rfl,
    claim_C4_priority_default_and_stable_trim.2 c4_list 2 (by decide)
      (by decide)⟩

/-! ## Claim C9 -/

theorem run_rounds_bound (oracle : Nat → RoundData) (eps : Rat)
    (maxIter : Nat) :
    ∀ (fuel n : Nat) (prev : Option Rat), n ≤ maxIter →
      (run_rounds oracle eps maxIter fuel n prev).length ≤ maxIter - n + 1 ∧
      ∀ rr ∈ run_rounds oracle eps maxIter fuel n prev,
        rr.round_number ≤ maxIter := by
  intro fuel
  induction fuel with
  | zero =>
    intro n prev hn
    constructor
    · simp [run_rounds]
    · intro rr hrr
      simp [run_rounds] at hrr
  | succ f ih =>
    intro n prev hn
    simp only [run_rounds]
    cases hdec : decideRound prev (oracle n) n maxIter eps with
    | terminateSession =>
      dsimp only
      constructor
      · simp
      · intro rr hrr
        rw [List.mem_singleton] at hrr
        subst hrr
        exact hn
    | continueRound =>
      have hlt : n < maxIter := by
        by_contra hge
        have hle : maxIter ≤ n := by omega
        unfold decideRound at hdec
        rw [if_pos hle] at hdec
        cases hdec
      dsimp only
      obtain ⟨ihl, ihm⟩ :=
        ih (n + 1) (some (oracle n).mean_critical_score) (by omega)
      constructor
      · simp only [List.length_cons]
        omega
      · intro rr hrr
        rcases List.mem_cons.mp hrr with hhead | htail
        · subst hhead
          exact Nat.le_of_lt hlt
        · exact ihm rr htail

/-- Claim C9 (spec-modelled round engine): a session never produces more
round records than `task.max_iterations`, and no appended round has a
`round_number` above `task.max_iterations`. -/
theorem claim_C9_round_bound (oracle : Nat → RoundData) (eps : Rat)
    (task : Task) (h : 0 < task.max_iterations) :
    (start_game_session oracle eps task).rounds.length ≤
      task.max_iterations ∧
    ∀ rr ∈ (start_game_session oracle eps task).rounds,
      rr.round_number ≤ task.max_iterations := by
  have hb := run_rounds_bound oracle eps task.max_iterations
    (task.max_iterations + 1) 1 none h
  constructor
  · calc (start_game_session oracle eps task).rounds.length
        = (run_rounds oracle eps task.max_iterations
            (task.max_iterations + 1) 1 none).length := rfl
      _ ≤ task.max_iterations - 1 + 1 := hb.1
      _ ≤ task.max_iterations := by omega
  · intro rr hrr
    exact hb.2 rr hrr

def c9_oracle : Nat → RoundData :=
  fun n => { mean_critical_score := (n : Rat), pareto_front := [0, 1] }

def c9_task : Task :=
  { task_id := "g1".data
    description := "demo".data
    domain := "demo".data
    requirements := []
    constraints := []
    max_iterations := 2 }

theorem claim_C9_witness :
    (start_game_session c9_oracle 1 c9_task).rounds.length ≤
      c9_task.max_iterations ∧
    ∀ rr ∈ (start_game_session c9_oracle 1 c9_task).rounds,
      rr.round_number ≤ c9_task.max_iterations :=
  claim_C9_round_bound c9_oracle 1 c9_task (by decide)

/-! ## Claim C10 -/

/-- Claim C10 (implicit): the lower bound of the count range is never
enforced.  With the capability response fixed, the outcome of
`generate_roles` is independent of `min`; and whenever at least one candidate
survives validation the operation succeeds with exactly the survivors, with
no constraint relating the survivor count to `min`. -/
theorem claim_C10_min_not_enforced :
    (∀ (r : List Char) (task : Task) (mn mn' mx : Int),
      (generate_roles (some (fun _ => r)) task (mn, mx)).1 =
        (generate_roles (some (fun _ => r)) task (mn', mx)).1) ∧
    (∀ (r : List Char) (task : Task) (mn mx : Int) (raw : JValue)
        (validated : List GeneratedRole),
      parse_roles_from_response r = .ok raw →
      validate_generated_roles raw (mk_request task (mn, mx)) = .ok validated →
      validated ≠ [] →
      (generate_roles (some (fun _ => r)) task (mn, mx)).1 = .ok validated) := by
  constructor
  · intro r task mn mn' mx
    show roles_pipeline r (mk_request task (mn, mx)) =
      roles_pipeline r (mk_request task (mn', mx))
    exact roles_pipeline_congr r _ _ rfl
  · intro r task mn mx raw validated hp hv hne
    show roles_pipeline r (mk_request task (mn, mx)) = .ok validated
    exact roles_pipeline_survivors _ _ raw validated hp hv hne

/-! ## Claim C3 -/

/-- Claim C3: candidate validation.  A candidate missing one of the five
required fields is skipped and the validator proceeds (it never fails on a
role array); non-list responsibilities/skills are coerced to a singleton of
their stripped text when non-blank, else to the empty list; and every
validated role has non-empty responsibilities and skills. -/
theorem claim_C3_candidate_validation :
    (∀ (fields : List (List Char × JValue)) (k : List Char),
      k ∈ required_fields → jlookup fields k = none →
      validate_candidate (.jobj fields) = none) ∧
    (∀ (items : List JValue) (request : RoleGenerationRequest),
      validate_generated_roles (.jarr items) request =
        .ok (trim_by_priority (items.filterMap validate_candidate)
          request.expected_count_range.2)) ∧
    (∀ s : List Char,
      ensure_list (.jstr s) = if pyStrip s = [] then [] else [pyStrip s]) ∧
    (∀ v : JValue, (∀ s, v ≠ .jstr s) → (∀ xs, v ≠ .jarr xs) →
      ensure_list v = []) ∧
    (∀ (v : JValue) (r : GeneratedRole), validate_candidate v = some r →
      r.responsibilities ≠ [] ∧ r.skills ≠ []) := by
  refine ⟨?_, ?_, ?_, ?_, ?_⟩
  · intro fields k hk hnone
    have hany : fields.any (fun kv => kv.1 = k) = false :=
      any_eq_false_of_jlookup_none fields k hnone
    have hall : required_fields.all (fun k' =>
        match pyContains (.jobj fields) k' with
        | .ok b => b
        | .error _ => false) = false := by
      rw [List.all_eq_false]
      refine ⟨k, hk, ?_⟩
      simp [pyContains, hany]
    unfold validate_candidate allFieldsPresent
    dsimp only
    rw [hall]
  · intro items request
    rfl
  · intro s
    rfl
  · intro v hs ha
    cases v with
    | jstr s => exact absurd rfl (hs s)
    | jarr xs => exact absurd rfl (ha xs)
    | jnull => rfl
    | jbool b => rfl
    | jnum n => rfl
    | jobj fields => rfl
  · intro v r h
    unfold validate_candidate at h
    split at h
    · exact absurd h (by simp)
    · exact absurd h (by simp)
    · split at h
      · exact absurd h (by simp)
      · split at h
        · next hcond =>
          cases h
          exact ⟨hcond.2.2.1, hcond.2.2.2⟩
        · exact absurd h (by simp)

def c3_obj : JValue :=
  .jobj
    [(nameKey, .jstr "qa".data),
     (roleTypeKey, .jstr "test".data),
     (respKey, .jstr "review".data),
     (skillsKey, .jnum 9),
     (outputReqKey, .jstr "report".data),
     (prioKey, .jnum 4)]

theorem claim_C3_witness :
    validate_candidate (.jobj [(nameKey, .jstr "qa".data)]) = none ∧
    ensure_list (.jnum 3) = [] ∧
    (∀ (r : GeneratedRole), validate_candidate c3_obj = some r →
      r.responsibilities ≠ [] ∧ r.skills ≠ []) :=
  ⟨claim_C3_candidate_validation.1 [(nameKey, .jstr "qa".data)] roleTypeKey
      (by decide) rfl,
    claim_C3_candidate_validation.2.2.2.1 (.jnum 3)
      (fun _ h => JValue.noConfusion h) (fun _ h => JValue.noConfusion h),
    fun r h => claim_C3_candidate_validation.2.2.2.2 c3_obj r h⟩

/-! ## Claims C5 and C6: helper lemmas -/

theorem roles_pipeline_parse_error (response : List Char)
    (request : RoleGenerationRequest) (e : DistError)
    (h : parse_roles_from_response response = .error e) :
    roles_pipeline response request = .error e := by
  unfold roles_pipeline
  rw [h]

theorem trim_by_priority_nil (mx : Int) : trim_by_priority [] mx = [] := by
  unfold trim_by_priority
  split
  · unfold pySliceTo sortDescByPriority
    simp [List.insertionSort]
  · rfl

theorem validate_generated_roles_nil (request : RoleGenerationRequest) :
    validate_generated_roles (.jarr []) request = .ok [] := by
  unfold validate_generated_roles pyIterate
  dsimp only
  rw [List.filterMap_nil, trim_by_priority_nil]

/-- `rolesPayloadGood v`: the decoded payload is a mapping carrying the
`roles` key. -/
def rolesPayloadGood (v : JValue) : Prop :=
  ∃ fields, v = .jobj fields ∧ jlookup fields rolesKey ≠ none

/-- `permsPayloadGood v`: the decoded payload is a mapping carrying the
`permissions` key. -/
def permsPayloadGood (v : JValue) : Prop :=
  ∃ fields, v = .jobj fields ∧ jlookup fields permissionsKey ≠ none

/-- The C5 hypothesis on the role side: the extracted payload is malformed
(undecodable) or structurally wrong (not a mapping, or missing `roles`). -/
def badRolesPayload (o : Option JValue) : Prop :=
  match o with
  | none => True
  | some v => ¬ rolesPayloadGood v

/-- The C5 hypothesis on the permission side. -/
def badPermsPayload (o : Option JValue) : Prop :=
  match o with
  | none => True
  | some v => ¬ permsPayloadGood v

theorem roles_pipeline_bad (response : List Char)
    (request : RoleGenerationRequest)
    (h : badRolesPayload (json_loads (extract_payload_roles response))) :
    ∃ e, roles_pipeline response request = .error e ∧
      isRoleGenerationError e := by
  cases ho : json_loads (extract_payload_roles response) with
  | none =>
    refine ⟨.roleJsonDecode, ?_, Or.inl rfl⟩
    refine roles_pipeline_parse_error _ _ _ ?_
    unfold parse_roles_from_response roles_of_payload
    rw [ho]
  | some v =>
    rw [ho] at h
    simp only [badRolesPayload] at h
    cases v with
    | jobj fields =>
      have hnone : jlookup fields rolesKey = none := by
        by_contra hne
        exact h ⟨fields, rfl, hne⟩
      have hany : fields.any (fun kv => kv.1 = rolesKey) = false :=
        any_eq_false_of_jlookup_none fields rolesKey hnone
      have hparse : parse_roles_from_response response = .ok (.jarr []) := by
        unfold parse_roles_from_response roles_of_payload
        rw [ho]
        dsimp only [pyContains]
        rw [hany]
      exact ⟨.roleEmpty,
        roles_pipeline_empty _ _ _ hparse (validate_generated_roles_nil _),
        Or.inr (Or.inr rfl)⟩
    | jstr s =>
      cases hc : containsSub s rolesKey with
      | true =>
        refine ⟨.roleTypeErr, roles_pipeline_parse_error _ _ _ ?_,
          Or.inr (Or.inl rfl)⟩
        unfold parse_roles_from_response roles_of_payload
        rw [ho]
        dsimp only [pyContains]
        rw [hc]
        rfl
      | false =>
        have hparse : parse_roles_from_response response = .ok (.jarr []) := by
          unfold parse_roles_from_response roles_of_payload
          rw [ho]
          dsimp only [pyContains]
          rw [hc]
        exact ⟨.roleEmpty,
          roles_pipeline_empty _ _ _ hparse (validate_generated_roles_nil _),
          Or.inr (Or.inr rfl)⟩
    | jarr xs =>
      cases hc : xs.any (fun x => match x with
        | .jstr t => t = rolesKey
        | _ => false) with
      | true =>
        refine ⟨.roleTypeErr, roles_pipeline_parse_error _ _ _ ?_,
          Or.inr (Or.inl rfl)⟩
        unfold parse_roles_from_response roles_of_payload
        rw [ho]
        dsimp only [pyContains]
        rw [hc]
        rfl
      | false =>
        have hparse : parse_roles_from_response response = .ok (.jarr []) := by
          unfold parse_roles_from_response roles_of_payload
          rw [ho]
          dsimp only [pyContains]
          rw [hc]
        exact ⟨.roleEmpty,
          roles_pipeline_empty _ _ _ hparse (validate_generated_roles_nil _),
          Or.inr (Or.inr rfl)⟩
    | jnum n =>
      refine ⟨.roleTypeErr, roles_pipeline_parse_error _ _ _ ?_,
        Or.inr (Or.inl rfl)⟩
      unfold parse_roles_from_response roles_of_payload
      rw [ho]
      rfl
    | jbool b =>
      refine ⟨.roleTypeErr, roles_pipeline_parse_error _ _ _ ?_,
        Or.inr (Or.inl rfl)⟩
      unfold parse_roles_from_response roles_of_payload
      rw [ho]
      rfl
    | jnull =>
      refine ⟨.roleTypeErr, roles_pipeline_parse_error _ _ _ ?_,
        Or.inr (Or.inl rfl)⟩
      unfold parse_roles_from_response roles_of_payload
      rw [ho]
      rfl

theorem perms_parse_bad (response : List Char)
    (h : badPermsPayload (json_loads (extract_payload_perms response))) :
    ∃ e, parse_permissions_from_response response = .error e ∧
      isPermAssignmentError e := by
  cases ho : json_loads (extract_payload_perms response) with
  | none =>
    refine ⟨.permJsonDecode, ?_, Or.inl rfl⟩
    unfold parse_permissions_from_response perms_of_payload
    rw [ho]
  | some v =>
    rw [ho] at h
    simp only [badPermsPayload] at h
    cases v with
    | jobj fields =>
      have hnone : jlookup fields permissionsKey = none := by
        by_contra hne
        exact h ⟨fields, rfl, hne⟩
      have hany : fields.any (fun kv => kv.1 = permissionsKey) = false :=
        any_eq_false_of_jlookup_none fields permissionsKey hnone
      refine ⟨.permMissingKey, ?_, Or.inr (Or.inl rfl)⟩
      unfold parse_permissions_from_response perms_of_payload
      rw [ho]
      dsimp only [pyContains]
      rw [hany]
    | jstr s =>
      cases hc : containsSub s permissionsKey with
      | true =>
        refine ⟨.permTypeErr, ?_, Or.inr (Or.inr rfl)⟩
        unfold parse_permissions_from_response perms_of_payload
        rw [ho]
        dsimp only [pyContains]
        rw [hc]
        rfl
      | false =>
        refine ⟨.permMissingKey, ?_, Or.inr (Or.inl rfl)⟩
        unfold parse_permissions_from_response perms_of_payload
        rw [ho]
        dsimp only [pyContains]
        rw [hc]
    | jarr xs =>
      cases hc : xs.any (fun x => match x with
        | .jstr t => t = permissionsKey
        | _ => false) with
      | true =>
        refine ⟨.permTypeErr, ?_, Or.inr (Or.inr rfl)⟩
        unfold parse_permissions_from_response perms_of_payload
        rw [ho]
        dsimp only [pyContains]
        rw [hc]
        rfl
      | false =>
        refine ⟨.permMissingKey, ?_, Or.inr (Or.inl rfl)⟩
        unfold parse_permissions_from_response perms_of_payload
        rw [ho]
        dsimp only [pyContains]
        rw [hc]
    | jnum n =>
      refine ⟨.permTypeErr, ?_, Or.inr (Or.inr rfl)⟩
      unfold parse_permissions_from_response perms_of_payload
      rw [ho]
      rfl
    | jbool b =>
      refine ⟨.permTypeErr, ?_, Or.inr (Or.inr rfl)⟩
      unfold parse_permissions_from_response perms_of_payload
      rw [ho]
      rfl
    | jnull =>
      refine ⟨.permTypeErr, ?_, Or.inr (Or.inr rfl)⟩
      unfold parse_permissions_from_response perms_of_payload
      rw [ho]
      rfl

/-! ## Claim C5 -/

/-- Claim C5: whenever the extracted payload is malformed or structurally
wrong, the whole operation fails with a role-generation-class error
(`generate_roles`) resp. a permission-assignment-class error
(`assign_collaboration_permissions`); neither operation returns an empty
substitute as success. -/
theorem claim_C5_malformed_payload_fails :
    (∀ (oracle : List Char → List Char) (task : Task) (range : Int × Int),
      badRolesPayload (json_loads (extract_payload_roles
        (oracle (build_role_generation_prompt (mk_request task range))))) →
      ∃ e, (generate_roles (some oracle) task range).1 = .error e ∧
        isRoleGenerationError e) ∧
    (∀ (oracle : List Char → List Char) (roles : List GeneratedRole),
      badPermsPayload (json_loads (extract_payload_perms
        (oracle (build_permission_assignment_prompt roles)))) →
      ∃ e, (assign_collaboration_permissions (some oracle) roles).1 =
        .error e ∧ isPermAssignmentError e) := by
  constructor
  · intro oracle task range h
    exact roles_pipeline_bad _ (mk_request task range) h
  · intro oracle roles h
    exact perms_parse_bad _ h

theorem claim_C5_witness :
    (∃ e, (generate_roles (some (fun _ => ("not json").data)) c1_task
      (3, 5)).1 = .error e ∧ isRoleGenerationError e) ∧
    (∃ e, (assign_collaboration_permissions
      (some (fun _ => ("also not json").data)) [c1_role]).1 = .error e ∧
      isPermAssignmentError e) :=
  ⟨claim_C5_malformed_payload_fails.1 (fun _ => ("not json").data) c1_task
      (3, 5) (by exact True.intro),
    claim_C5_malformed_payload_fails.2 (fun _ => ("also not json").data)
      [c1_role] (by exact True.intro)⟩

/-! ## Claim C6 -/

theorem perms_parse_ok (response : List Char) (m : JValue)
    (h : parse_permissions_from_response response = .ok m) :
    ∃ fields, json_loads (extract_payload_perms response) =
      some (.jobj fields) ∧ jlookup fields permissionsKey = some m := by
  unfold parse_permissions_from_response perms_of_payload at h
  cases ho : json_loads (extract_payload_perms response) with
  | none =>
    rw [ho] at h
    exact absurd h (by simp)
  | some v =>
    rw [ho] at h
    cases v with
    | jobj fields =>
      refine ⟨fields, rfl, ?_⟩
      dsimp only [pyContains] at h
      cases hany : fields.any (fun kv => kv.1 = permissionsKey) with
      | false =>
        rw [hany] at h
        exact absurd h (by simp)
      | true =>
        rw [hany] at h
        dsimp only [pyGetItem] at h
        cases hl : jlookup fields permissionsKey with
        | none =>
          rw [hl] at h
          exact absurd h (by simp)
        | some w =>
          rw [hl] at h
          cases h
          rfl
    | jstr s =>
      dsimp only [pyContains] at h
      cases hc : containsSub s permissionsKey with
      | true =>
        rw [hc] at h
        dsimp only [pyGetItem] at h
        exact absurd h (by simp)
      | false =>
        rw [hc] at h
        exact absurd h (by simp)
    | jarr xs =>
      dsimp only [pyContains] at h
      cases hc : xs.any (fun x => match x with
        | .jstr t => t = permissionsKey
        | _ => false) with
      | true =>
        rw [hc] at h
        dsimp only [pyGetItem] at h
        exact absurd h (by simp)
      | false =>
        rw [hc] at h
        exact absurd h (by simp)
    | jnum n =>
      dsimp only [pyContains] at h
      exact absurd h (by simp)
    | jbool b =>
      dsimp only [pyContains] at h
      exact absurd h (by simp)
    | jnull =>
      dsimp only [pyContains] at h
      exact absurd h (by simp)

/-- Claim C6: `assign_collaboration_permissions` fails with the dedicated
errors when the payload cannot be decoded or the decoded mapping lacks the
`permissions` key, and on success the returned mapping is exactly the decoded
`permissions` value. -/
theorem claim_C6_permissions_exact :
    (∀ (oracle : List Char → List Char) (roles : List GeneratedRole),
      json_loads (extract_payload_perms
        (oracle (build_permission_assignment_prompt roles))) = none →
      (assign_collaboration_permissions (some oracle) roles).1 =
        .error .permJsonDecode) ∧
    (∀ (oracle : List Char → List Char) (roles : List GeneratedRole)
        (fields : List (List Char × JValue)),
      json_loads (extract_payload_perms
        (oracle (build_permission_assignment_prompt roles))) =
        some (.jobj fields) →
      jlookup fields permissionsKey = none →
      (assign_collaboration_permissions (some oracle) roles).1 =
        .error .permMissingKey) ∧
    (∀ (oracle : List Char → List Char) (roles : List GeneratedRole)
        (m : JValue),
      (assign_collaboration_permissions (some oracle) roles).1 = .ok m →
      ∃ fields, json_loads (extract_payload_perms
        (oracle (build_permission_assignment_prompt roles))) =
          some (.jobj fields) ∧
        jlookup fields permissionsKey = some m) := by
  refine ⟨?_, ?_, ?_⟩
  · intro oracle roles ho
    show parse_permissions_from_response
      (oracle (build_permission_assignment_prompt roles)) =
        .error .permJsonDecode
    unfold parse_permissions_from_response perms_of_payload
    rw [ho]
  · intro oracle roles fields ho hnone
    show parse_permissions_from_response
      (oracle (build_permission_assignment_prompt roles)) =
        .error .permMissingKey
    unfold parse_permissions_from_response perms_of_payload
    rw [ho]
    dsimp only [pyContains]
    rw [any_eq_false_of_jlookup_none fields permissionsKey hnone]
  · intro oracle roles m h
    exact perms_parse_ok _ m h

theorem claim_C6_witness :
    (assign_collaboration_permissions (some (fun _ => ("oops").data))
      [c1_role]).1 = .error .permJsonDecode ∧
    (assign_collaboration_permissions
      (some (fun _ => ("```json\n\x7b\"perms\": 1\x7d\n```").data))
      [c1_role]).1 = .error .permMissingKey ∧
    (∃ fields, json_loads (extract_payload_perms
        ((fun _ => c8_perm_resp) (build_permission_assignment_prompt
          [c1_role]))) = some (.jobj fields) ∧
      jlookup fields permissionsKey =
        some (.jobj [("dev".data, .jarr [.jstr "qa".data])])) :=
  ⟨claim_C6_permissions_exact.1 (fun _ => ("oops").data) [c1_role] rfl,
    claim_C6_permissions_exact.2.1
      (fun _ => ("```json\n\x7b\"perms\": 1\x7d\n```").data) [c1_role]
      [("perms".data, .jnum 1)] rfl rfl,
    claim_C6_permissions_exact.2.2 (fun _ => c8_perm_resp) [c1_role]
      (.jobj [("dev".data, .jarr [.jstr "qa".data])]) rfl⟩

theorem claim_C10_witness :
    (generate_roles (some (fun _ => c1_good_resp)) c1_task (9, 10)).1 =
        (generate_roles (some (fun _ => c1_good_resp)) c1_task (2, 10)).1 ∧
    (generate_roles (some (fun _ => c1_good_resp)) c1_task (9, 10)).1 =
      .ok [c1_role] :=
  ⟨claim_C10_min_not_enforced.1 c1_good_resp c1_task 9 2 10,
    claim_C10_min_not_enforced.2 c1_good_resp c1_task 9 10
      (.jarr [.jobj
        [(nameKey, .jstr "dev".data),
         (roleTypeKey, .jstr "eng".data),
         (respKey, .jarr [.jstr "code".data]),
         (skillsKey, .jarr [.jstr "python".data]),
         (outputReqKey, .jstr "app".data),
         (prioKey, .jnum 7)]])
      [c1_role] rfl rfl (by simp)⟩

end NagaDist
